/-
Verification of the condition-evaluation engine of an automated
"second new high after consolidation" stock screening strategy
(src/strategy_bot_v2.py, class AutomatedSecondHighStrategy).

Shallow embedding conventions:
* A price / volume / revenue column is a `List (Option ℚ)`; `none` models a
  missing value (pandas NaN).  `dropna` models `Series.dropna()`.
* pandas `Series.rolling(w)` uses `min_periods = w`, so a rolling aggregate at
  position `i` is populated (`some _`) exactly when the window of the last `w`
  positions is fully inside the series; otherwise it is NaN (`none`).
  Comparisons against NaN are `False` in pandas; the embedding matches on the
  `Option` and returns `false` for `none`.
* Machine floats are embedded as exact rationals.  The one place the float
  semantics matters (division producing infinity in the RSI computation when
  the mean loss is 0) is modelled by the corresponding explicit case split.
* Fields of the per-candidate dict that no claim concerns (latest_date, ma5,
  ma10, ma20, volatility — the last needs a square root, which has no exact
  rational embedding) are omitted from the candidate record.
-/
import Mathlib

set_option maxRecDepth 1000000

namespace SecondHigh

/-! ## pandas-like primitives -/

/-- Model of `Series.dropna()`: keep the non-missing entries, in order. -/
def dropna (xs : List (Option ℚ)) : List ℚ := xs.filterMap id

/-- The last `n` entries of a list (the whole list when it is shorter). -/
def lastN {α : Type} (n : ℕ) (xs : List α) : List α := xs.drop (xs.length - n)

/-- Maximum of a list of rationals, `none` for the empty list
(model of `Series.max()`, which is NaN on an empty series). -/
def listMax : List ℚ → Option ℚ
  | [] => none
  | x :: t => some (t.foldl max x)

/-- Model of `Series.rolling(w).max()` (with the pandas default
`min_periods = w`): entry `i` is the maximum of entries `i+1-w … i` when that
window is fully populated, and NaN (`none`) when `i + 1 < w`. -/
def rollingMax (w : ℕ) (xs : List ℚ) : List (Option ℚ) :=
  (List.range xs.length).map (fun i =>
    if w ≤ i + 1 then listMax ((xs.drop (i + 1 - w)).take w) else none)

/-- The last entry of `Series.rolling(w).max()`: the maximum of the last `w`
entries when the series has at least `w` entries, NaN otherwise. -/
def rollingMaxLast (w : ℕ) (xs : List ℚ) : Option ℚ :=
  if w ≤ xs.length then listMax (lastN w xs) else none

/-- Mean of the last `k` entries (model of `Series.tail(k).mean()`; every call
site guarantees at least `k` entries, so the divisor is the window length). -/
def meanLast (k : ℕ) (xs : List ℚ) : ℚ :=
  (lastN k xs).sum / ((lastN k xs).length : ℚ)

/-- The last entry of `Series.rolling(w).mean()` on a column that may contain
missing values: populated only when the column has at least `w` rows and the
last `w` rows are all non-missing (pandas `min_periods = w`). -/
def rollingMeanLast (w : ℕ) (col : List (Option ℚ)) : Option ℚ :=
  if w ≤ col.length then
    if (lastN w col).all (fun o => o.isSome) then
      some ((dropna (lastN w col)).sum / (w : ℚ))
    else none
  else none

/-! ## Data model -/

/-- One instrument's slice of the aligned input panels.  `volume` is the
instrument's column of the volume panel (used only when the volume panel is
present); `revenue` is `none` when the monthly-revenue panel is absent or the
instrument has no revenue column (the code treats both alike). -/
structure StockData where
  sid : String
  close : List (Option ℚ)
  volume : List (Option ℚ)
  revenue : Option (List (Option ℚ))
deriving DecidableEq

/-- The raw panels of one run: number of rows of the price panel, whether the
volume panel was fetched, whether the monthly-revenue panel was fetched, and
the per-instrument columns. -/
structure MarketData where
  nrows : ℕ
  volumePresent : Bool
  revenuePresent : Bool
  stocks : List StockData

/-- The dict appended to `results` for an instrument that passes all eight
conditions (`calculate_second_high_conditions`, lines 236-256).
`details` is the `condition_details` vector `[condition1, …, condition8]`. -/
structure CandidateRecord where
  sid : String
  latest_price : ℚ
  resistance_break : ℚ
  breakthroughRatioVal : ℚ
  long_term_gain : ℚ
  medium_term_gain : ℚ
  rsiVal : Option ℚ
  volumeRatioVal : ℚ
  conditions_met : ℕ
  details : List Bool
deriving DecidableEq

/-! ## The eight conditions (`calculate_second_high_conditions`, lines 184-226)

Throughout, `sc` is `stock_close = close_filtered[stock_id].dropna()`. -/

/-- Condition 1 (line 185-186): `latest_price >= stock_close.rolling(60).max().iloc[-1]`.
A NaN rolling maximum (fewer than 60 sessions) compares `False`. -/
def condition1 (sc : List ℚ) : Bool :=
  match rollingMaxLast 60 sc with
  | some m => decide (m ≤ sc.getLastD 0)
  | none => false

/-- The slice `stock_close.iloc[-31:-1]` (line 192): the 30 sessions
immediately preceding the evaluation date. -/
def past30 (sc : List ℚ) : List ℚ := lastN 30 sc.dropLast

/-- Condition 2 (lines 192-194): `past_30d_prices.rolling(60).max()` is taken
over the 30-element slice itself, and `(past_30d_prices < past_30d_highs).any()`.
Each comparison against a NaN rolling entry is `False`. -/
def condition2 (sc : List ℚ) : Bool :=
  (List.zip (past30 sc) (rollingMax 60 (past30 sc))).any
    (fun ph => match ph.2 with
      | some m => decide (ph.1 < m)
      | none => false)

/-- The slice `stock_close.iloc[-55:-30]` (lines 197, 205): sessions
[-55, -30) relative to the evaluation date. -/
def confirmWindow (sc : List ℚ) : List ℚ :=
  (sc.take (sc.length - 30)).drop (sc.length - 55)

/-- Condition 3 (lines 197-202): `check_period.rolling(60).max()` is taken over
the 25-element slice itself, and `(check_period >= historical_highs).any()`. -/
def condition3 (sc : List ℚ) : Bool :=
  (List.zip (confirmWindow sc) (rollingMax 60 (confirmWindow sc))).any
    (fun ph => match ph.2 with
      | some m => decide (m ≤ ph.1)
      | none => false)

/-- Condition 4 (lines 205-206): `latest_price > stock_close.iloc[-55:-30].max()`. -/
def condition4 (sc : List ℚ) : Bool :=
  match listMax (confirmWindow sc) with
  | some r => decide (r < sc.getLastD 0)
  | none => false

/-- Condition 5 (lines 209-213): `latest_price > stock_close.iloc[-120]` when
at least 120 closes exist, otherwise `False`. -/
def condition5 (sc : List ℚ) : Bool :=
  if 120 ≤ sc.length then decide (sc.getD (sc.length - 120) 0 < sc.getLastD 0)
  else false

/-- Condition 6 (lines 216-220): `latest_price > stock_close.iloc[-60]` when
at least 60 closes exist, otherwise `False`. -/
def condition6 (sc : List ℚ) : Bool :=
  if 60 ≤ sc.length then decide (sc.getD (sc.length - 60) 0 < sc.getLastD 0)
  else false

/-- Condition 7, `check_revenue_growth` (lines 270-288): `True` when the
monthly-revenue panel is absent, the instrument has no revenue column, or
fewer than 12 non-missing months exist; otherwise the trailing 3-month mean
must strictly exceed the trailing 12-month mean.  (The `except: return True`
branch is unreachable in the embedding: all operations are total.) -/
def check_revenue_growth (revP : Bool) (rcol : Option (List (Option ℚ))) : Bool :=
  if revP then
    match rcol with
    | none => true
    | some col =>
      let rd := dropna col
      if rd.length < 12 then true
      else decide (meanLast 12 rd < meanLast 3 rd)
  else true

/-- Condition 8, `check_volume_expansion` (lines 290-308): `True` when the
volume panel is absent or fewer than 20 non-missing observations exist;
otherwise the trailing 5-session mean must exceed 1.2 times the trailing
20-session mean. -/
def check_volume_expansion (volP : Bool) (vcol : List (Option ℚ)) : Bool :=
  if volP then
    let vd := dropna vcol
    if vd.length < 20 then true
    else decide (meanLast 20 vd * (12 / 10) < meanLast 5 vd)
  else true

/-! ## Technical metrics (`calculate_technical_metrics`, lines 310-351) -/

/-- Model of `stock_close.diff()`: first entry NaN, then successive
differences. -/
def diffs (sc : List ℚ) : List (Option ℚ) :=
  match sc with
  | [] => []
  | _ :: t => none :: t.zipWith (fun a b => some (a - b)) sc

/-- Model of `delta.where(delta > 0, 0)` (line 321): the positive part of each
difference; the leading NaN compares `False` against 0 and becomes 0. -/
def gains (sc : List ℚ) : List ℚ :=
  (diffs sc).map (fun d => match d with
    | some x => if 0 < x then x else 0
    | none => 0)

/-- Model of `(-delta.where(delta < 0, 0))` (line 322). -/
def losses (sc : List ℚ) : List ℚ :=
  (diffs sc).map (fun d => match d with
    | some x => if x < 0 then -x else 0
    | none => 0)

/-- The last entry of the RSI series `100 - 100 / (1 + gain/loss)`
(lines 320-324), `none` modelling a NaN entry.  The rolling(14) means over the
(NaN-free) gain/loss series are populated from position 13 on, so the last
entry is NaN when fewer than 14 closes exist.  When the mean loss is 0 the
float quotient `gain/loss` is `inf` (so RSI is 100) if the mean gain is
positive, and NaN (so RSI is NaN) if the mean gain is also 0. -/
def rsi_last (sc : List ℚ) : Option ℚ :=
  if sc.length < 14 then none
  else
    let g := meanLast 14 (gains sc)
    let l := meanLast 14 (losses sc)
    if l = 0 then (if 0 < g then some 100 else none)
    else some (100 - 100 / (1 + g / l))

/-- The reported `rsi` metric (line 342): `rsi.iloc[-1] if not rsi.empty else 50`.
The RSI series has the same length as the close series, so the 50 default
applies exactly to an empty close series. -/
def reported_rsi (sc : List ℚ) : Option ℚ :=
  if sc.length = 0 then some 50 else rsi_last sc

/-- The reported `volume_ratio` metric (lines 327-333): 1.0 when the volume
panel is absent or fewer than 20 non-missing observations exist; otherwise
`volume_5d / volume_20d` guarded by `volume_20d > 0`, with neutral default
1.0 when the 20-session mean is not positive. -/
def volume_ratio_metric (volP : Bool) (vcol : List (Option ℚ)) : ℚ :=
  if volP then
    let vd := dropna vcol
    if vd.length < 20 then 1
    else
      if 0 < meanLast 20 vd then meanLast 5 vd / meanLast 20 vd
      else 1
  else 1

/-! ## Per-instrument evaluation (`calculate_second_high_conditions`, lines 170-259) -/

/-- Evaluate one instrument: `none` models `continue` (skipped instrument),
`some r` the dict appended to `results`. -/
def evaluateStock (revP volP : Bool) (s : StockData) : Option CandidateRecord :=
  let sc := dropna s.close
  if sc.length < 130 then none
  else if condition1 sc = false then none
  else if (confirmWindow sc).length < 25 then none
  else
    let latest := sc.getLastD 0
    let conds := [condition1 sc, condition2 sc, condition3 sc, condition4 sc,
                  condition5 sc, condition6 sc,
                  check_revenue_growth revP s.revenue,
                  check_volume_expansion volP s.volume]
    if conds.all (fun b => b) then
      let resistance := (listMax (confirmWindow sc)).getD 0
      some { sid := s.sid
             latest_price := latest
             resistance_break := resistance
             breakthroughRatioVal := (latest / resistance - 1) * 100
             long_term_gain :=
               if 120 ≤ sc.length then (latest / sc.getD (sc.length - 120) 0 - 1) * 100 else 0
             medium_term_gain :=
               if 60 ≤ sc.length then (latest / sc.getD (sc.length - 60) 0 - 1) * 100 else 0
             rsiVal := reported_rsi sc
             volumeRatioVal := volume_ratio_metric volP s.volume
             conditions_met := conds.count true
             details := conds }
    else none

/-! ## Ranking (line 263)

`df.sort_values(['conditions_met', 'breakthrough_ratio'], ascending=[False, False])`:
a multi-column pandas sort is performed with `numpy.lexsort`, a stable sort.
It is embedded as a stable insertion sort on the strict descending
lexicographic key. -/

/-- Strict "ranks higher" comparison on `(conditions_met, breakthrough_ratio)`. -/
def keyGT (x a : CandidateRecord) : Bool :=
  decide (a.conditions_met < x.conditions_met ∨
    (x.conditions_met = a.conditions_met ∧
      a.breakthroughRatioVal < x.breakthroughRatioVal))

/-- Non-strict descending order on `(conditions_met, breakthrough_ratio)`. -/
def keyGE (a b : CandidateRecord) : Prop :=
  b.conditions_met < a.conditions_met ∨
    (a.conditions_met = b.conditions_met ∧
      b.breakthroughRatioVal ≤ a.breakthroughRatioVal)

/-- Does the record carry the sort key `(n, q)`? -/
def keyEq (n : ℕ) (q : ℚ) (r : CandidateRecord) : Bool :=
  decide (r.conditions_met = n ∧ r.breakthroughRatioVal = q)

/-- Stable insertion: the new record goes behind every strictly
higher-ranking record and in front of the first equal-or-lower one. -/
def insertRec (a : CandidateRecord) : List CandidateRecord → List CandidateRecord
  | [] => [a]
  | x :: xs => if keyGT x a then x :: insertRec a xs else a :: x :: xs

/-- Stable descending sort by `(conditions_met, breakthrough_ratio)`. -/
def sortResults (l : List CandidateRecord) : List CandidateRecord :=
  l.foldr insertRec []

/-- The unsorted `results` list, in universe iteration order. -/
def rawResults (revP volP : Bool) (stocks : List StockData) : List CandidateRecord :=
  stocks.filterMap (evaluateStock revP volP)

/-- `calculate_second_high_conditions` (lines 162-268): evaluate every
surviving instrument, keep the fully-passing ones, sort.  (An empty result
list is returned as an empty DataFrame; both cases are one sorted list here.) -/
def calculate_second_high_conditions (revP volP : Bool)
    (stocks : List StockData) : List CandidateRecord :=
  sortResults (rawResults revP volP stocks)

/-! ## Basic filter and run pipeline (`apply_basic_filters` lines 129-160,
`run_analysis` lines 529-535) -/

/-- `apply_basic_filters`: keep instruments with enough history
(`count >= min(250, nrows * 0.8)`), latest close at least 10 (a NaN latest
close compares `False`), and — when the volume panel is present — a fully
populated 20-session rolling mean volume of at least 1000 (a NaN rolling mean
compares `False`).  Column order is preserved. -/
def apply_basic_filters (d : MarketData) : List StockData :=
  d.stocks.filter (fun s =>
    (decide (min 250 ((d.nrows : ℚ) * (8 / 10)) ≤ ((dropna s.close).length : ℚ))) &&
    (match s.close.getLastD none with
      | some p => decide ((10 : ℚ) ≤ p)
      | none => false) &&
    (if d.volumePresent then
      match rollingMeanLast 20 s.volume with
      | some m => decide ((1000 : ℚ) ≤ m)
      | none => false
    else true))

/-- The exception message raised by `run_analysis` when basic filtering leaves
no instrument (line 532). -/
def emptyUniverseMsg : String := "基礎篩選後無可用股票"

/-- Steps 3-4 of `run_analysis` (lines 529-535): basic filtering, then either
an exception (empty universe) or the evaluated, ranked candidate list. -/
def run_analysis (d : MarketData) : Except String (List CandidateRecord) :=
  let close_filtered := apply_basic_filters d
  if close_filtered.isEmpty then Except.error emptyUniverseMsg
  else Except.ok
    (calculate_second_high_conditions d.revenuePresent d.volumePresent close_filtered)

/-! ## Spec-side definitions

These definitions follow the wording of the specification (not the code) and
exist only to be compared against the code-derived definitions above. -/

/-- Wording of spec §4.2 item 2 / claim C1: among the 30 sessions immediately
preceding the evaluation date (indices `n-31 … n-2`), at least one session's
close is strictly below its own trailing-60-session rolling maximum close,
the trailing window being taken over the full history. -/
def spec_condition2 (sc : List ℚ) : Bool :=
  (List.range 30).any (fun j =>
    let i := sc.length - 31 + j
    match listMax ((sc.drop (i + 1 - 60)).take 60) with
    | some m => decide (sc.getD i 0 < m)
    | none => false)

/-- Wording of spec §4.2 item 3 / claim C2: within the window of sessions
[-55, -30) (indices `n-55 … n-31`), at least one session's close equals or
exceeds its own trailing-60-session rolling maximum close taken over the full
history (a new 60-session high). -/
def spec_condition3 (sc : List ℚ) : Bool :=
  (List.range 25).any (fun j =>
    let i := sc.length - 55 + j
    match listMax ((sc.drop (i + 1 - 60)).take 60) with
    | some m => decide (m ≤ sc.getD i 0)
    | none => false)

/-- Wording of spec §4.2 item 5 / claim C8: the latest close strictly exceeds
the close observed 120 sessions earlier (index `n - 1 - 120`), and the
condition is false when fewer than 120 prior sessions exist. -/
def spec_condition5 (sc : List ℚ) : Bool :=
  if sc.length - 1 < 120 then false
  else decide (sc.getD (sc.length - 121) 0 < sc.getLastD 0)

/-- Wording of spec §4.2 item 7 / claim C5: condition 7 holds iff the revenue
panel is absent, or the instrument has no revenue column, or fewer than 12
non-missing months exist, or the 3-month trailing mean strictly exceeds the
12-month trailing mean. -/
def spec_condition7 (revP : Bool) (rcol : Option (List (Option ℚ))) : Bool :=
  !revP || rcol.isNone ||
    decide ((dropna (rcol.getD [])).length < 12) ||
    decide (meanLast 12 (dropna (rcol.getD [])) < meanLast 3 (dropna (rcol.getD [])))

/-- Replace the evaluation-date close with `v` (claim C7). -/
def replaceLast (xs : List ℚ) (v : ℚ) : List ℚ := xs.dropLast ++ [v]

/-- Claim C7's reference level, read literally: the maximum close of the
prior 60-session window, i.e. of the 60 sessions preceding the evaluation
date. -/
def priorWindowMax (sc : List ℚ) : Option ℚ := listMax (lastN 60 sc.dropLast)

/-- The amended reference level for claim C7: the maximum close of the 59
sessions preceding the evaluation date (the sessions sharing the trailing
60-session window with it). -/
def prior59Max (sc : List ℚ) : Option ℚ := listMax (lastN 59 sc.dropLast)

/-! ## Helper lemmas -/

/-- Every entry of a rolling maximum over a series shorter than the window is
NaN. -/
theorem rollingMax_entry_none {w : ℕ} {xs : List ℚ} (h : xs.length < w)
    {o : Option ℚ} (ho : o ∈ rollingMax w xs) : o = none := by
  rcases List.mem_map.mp ho with ⟨i, hi, rfl⟩
  have hiw : ¬ w ≤ i + 1 := by
    have := List.mem_range.mp hi
    omega
  simp [hiw]

/-- The slice `iloc[-31:-1]` has at most 30 entries. -/
theorem past30_length_le (sc : List ℚ) : (past30 sc).length ≤ 30 := by
  simp [past30, lastN]
  omega

/-- The slice `iloc[-55:-30]` has at most 25 entries. -/
theorem confirmWindow_length_le (sc : List ℚ) : (confirmWindow sc).length ≤ 25 := by
  simp [confirmWindow]
  omega

/-- Condition 2 is identically false: the rolling window (60) never fits
inside the 30-element slice, so every rolling entry is NaN and every
comparison is `False`. -/
theorem condition2_eq_false (sc : List ℚ) : condition2 sc = false := by
  rw [condition2]
  rw [List.any_eq_false]
  intro ph hph
  have h2 := (List.of_mem_zip hph).2
  have hlt : (past30 sc).length < 60 :=
    lt_of_le_of_lt (past30_length_le sc) (by norm_num)
  have hn := rollingMax_entry_none hlt h2
  simp [hn]

/-- Condition 3 is identically false, for the same reason as condition 2 (the
rolling window of 60 never fits inside the 25-element slice). -/
theorem condition3_eq_false (sc : List ℚ) : condition3 sc = false := by
  rw [condition3]
  rw [List.any_eq_false]
  intro ph hph
  have h2 := (List.of_mem_zip hph).2
  have hlt : (confirmWindow sc).length < 60 :=
    lt_of_le_of_lt (confirmWindow_length_le sc) (by norm_num)
  have hn := rollingMax_entry_none hlt h2
  simp [hn]

/-- No instrument is ever appended to `results`: the guard requires
condition 2, which is identically false. -/
theorem evaluateStock_eq_none (revP volP : Bool) (s : StockData) :
    evaluateStock revP volP s = none := by
  rw [evaluateStock]
  split
  · rfl
  · split
    · rfl
    · split
      · rfl
      · simp [condition2_eq_false]

/-- The `results` list is empty for every input universe. -/
theorem rawResults_eq_nil (revP volP : Bool) (stocks : List StockData) :
    rawResults revP volP stocks = [] := by
  rw [rawResults, List.filterMap_eq_nil_iff]
  intro s _
  exact evaluateStock_eq_none revP volP s

/-- The emitted candidate list is empty for every input universe. -/
theorem calc_eq_nil (revP volP : Bool) (stocks : List StockData) :
    calculate_second_high_conditions revP volP stocks = [] := by
  rw [calculate_second_high_conditions, rawResults_eq_nil]
  rfl

/-! ## Concrete instrument histories used as failing inputs / witnesses -/

/-- 130-session history: 99 sessions at 100, a high of 101, a 29-session
consolidation at 90, and a breakout close at 102.  It reaches condition 2
(length 130 and condition 1 holds) and plainly contains consolidation days. -/
def exC1 : List ℚ := List.replicate 99 100 ++ [101] ++ List.replicate 29 90 ++ [102]

/-- 130-session history: 80 sessions at 100, a new 60-session high of 105 at
index 80 (inside the [-55,-30) window), a consolidation at 90, and a breakout
close at 106. -/
def exC2 : List ℚ := List.replicate 80 100 ++ [105] ++ List.replicate 48 90 ++ [106]

/-- 130-session history whose prior 60-session window has its maximum (100)
exactly at the session about to leave the trailing-60 window of the
evaluation date. -/
def exC7 : List ℚ := List.replicate 69 50 ++ [100] ++ List.replicate 59 50 ++ [55]

/-- 130-session history with `close[9] = 200` (120 sessions before the last),
`close[10] = 50` (`iloc[-120]`), and latest close 100. -/
def exC8 : List ℚ := List.replicate 9 (100 : ℚ) ++ [200] ++ [50] ++ List.replicate 119 100

/-- 130-session history whose last 14 daily changes alternate +1 / −1, so the
14-session mean gain and mean loss are both 1/2. -/
def exC9 : List ℚ := List.replicate 115 100 ++
  [100, 101, 100, 101, 100, 101, 100, 101, 100, 101, 100, 101, 100, 101, 100]

/-- A one-instrument universe whose instrument fails the price floor (latest
close 5 < 10), so basic filtering drops everything. -/
def exC3 : MarketData :=
  { nrows := 130, volumePresent := false, revenuePresent := false,
    stocks := [{ sid := "1101", close := List.replicate 130 (some 5),
                 volume := [], revenue := none }] }

/-! ## Claim C1 -/

/-- Claim C1 (code bug): condition 2 should hold for `exC1` — the instrument
is evaluated (130 closes, condition 1 holds) and, among the 30 sessions
preceding the evaluation date, the sessions at 90 are strictly below their
trailing-60 rolling maximum (`spec_condition2`).  The code instead computes
the rolling maximum over the 30-element slice itself, whose 60-session
windows are never populated, so `condition2` is `false` — indeed it is
`false` for every input (`condition2_eq_false`), contradicting the code's own
comment and the spec. -/
theorem c1_consolidation_dead (revP volP : Bool) (vol : List (Option ℚ))
    (rev : Option (List (Option ℚ))) (sid : String) :
    exC1.length = 130 ∧ condition1 exC1 = true ∧
      spec_condition2 exC1 = true ∧ condition2 exC1 = false ∧
      evaluateStock revP volP
        { sid := sid, close := exC1.map some, volume := vol, revenue := rev } = none := by
  refine ⟨by decide!, by decide!, by decide!, condition2_eq_false exC1, ?_⟩
  exact evaluateStock_eq_none revP volP _

/-! ## Claim C2 -/

/-- Claim C2 (code bug): condition 3 should hold for `exC2` — session 80
(inside the [-55,-30) window) sets a new 60-session high, so
`spec_condition3` is true.  The code computes the rolling maximum over the
25-element slice itself, whose 60-session windows are never populated, so
`condition3` is `false` — indeed it is `false` for every input
(`condition3_eq_false`), contradicting the code's own comment and the spec. -/
theorem c2_confirmation_dead :
    exC2.length = 130 ∧ condition1 exC2 = true ∧
      spec_condition3 exC2 = true ∧ condition3 exC2 = false := by
  refine ⟨by decide!, by decide!, by decide!, condition3_eq_false exC2⟩

/-! ## Claim C5 -/

/-- Claim C5 (confirmed): condition 7 is fail-open — it equals the spec's
disjunction (panel absent, column absent, fewer than 12 months, or 3-month
mean strictly above 12-month mean) — and removing the revenue panel entirely
(evaluating with `revenuePresent = false`) never changes the emitted
candidate list. -/
theorem c5_revenue_fail_open :
    (∀ (revP : Bool) (rcol : Option (List (Option ℚ))),
        check_revenue_growth revP rcol = spec_condition7 revP rcol) ∧
    (∀ (volP : Bool) (stocks : List StockData),
        calculate_second_high_conditions false volP stocks
          = calculate_second_high_conditions true volP stocks) := by
  constructor
  · intro revP rcol
    cases revP
    · simp [check_revenue_growth, spec_condition7]
    · cases rcol with
      | none => simp [check_revenue_growth, spec_condition7]
      | some col =>
        by_cases h : (dropna col).length < 12
        · simp [check_revenue_growth, spec_condition7, h]
        · simp [check_revenue_growth, spec_condition7, h]
  · intro volP stocks
    rw [calc_eq_nil, calc_eq_nil]

/-! ## Claim C6 -/

/-- Claim C6 (confirmed): every emitted candidate has all eight condition
booleans true and `conditions_met = 8` — records are only appended under the
guard that all eight conditions hold (and in fact, with conditions 2 and 3
identically false, the emitted list is always empty, so the invariant holds
a fortiori). -/
theorem c6_no_partial_pass (revP volP : Bool) (stocks : List StockData) :
    (calculate_second_high_conditions revP volP stocks).all
      (fun r => r.details.all (fun b => b) &&
        decide (r.conditions_met = 8) && decide (r.details.length = 8)) = true := by
  rw [calc_eq_nil]
  rfl

/-! ## Claim C10 -/

/-- Claim C10 (confirmed): for an instrument with at least 20 non-missing
volume observations whose 20-session mean volume is 0, the reported volume
ratio is the neutral default 1, not a quotient by zero. -/
theorem c10_volume_ratio_safe (vcol : List (Option ℚ))
    (h1 : 20 ≤ (dropna vcol).length) (h2 : meanLast 20 (dropna vcol) = 0) :
    volume_ratio_metric true vcol = 1 := by
  rw [volume_ratio_metric]
  simp only [if_true]
  rw [if_neg (by omega), if_neg (by rw [h2]; norm_num)]

/-- Witness for claim C10 at a concrete all-zero volume column. -/
theorem c10_volume_ratio_safe_witness :
    volume_ratio_metric true (List.replicate 20 (some (0 : ℚ))) = 1 :=
  c10_volume_ratio_safe (List.replicate 20 (some (0 : ℚ))) (by decide!) (by decide!)

/-! ## Ranking lemmas -/

theorem sortResults_cons (a : CandidateRecord) (l : List CandidateRecord) :
    sortResults (a :: l) = insertRec a (sortResults l) := rfl

theorem keyGE_of_keyGT {x a : CandidateRecord} (h : keyGT x a = true) : keyGE x a := by
  rw [keyGT, decide_eq_true_eq] at h
  rcases h with h | ⟨h1, h2⟩
  · exact Or.inl h
  · exact Or.inr ⟨h1, le_of_lt h2⟩

theorem keyGE_of_not_keyGT {x a : CandidateRecord} (h : keyGT x a = false) : keyGE a x := by
  rw [keyGT, decide_eq_false_iff_not] at h
  push_neg at h
  obtain ⟨h1, h2⟩ := h
  rcases Nat.lt_or_ge x.conditions_met a.conditions_met with hlt | hge
  · exact Or.inl hlt
  · have he : x.conditions_met = a.conditions_met := by omega
    exact Or.inr ⟨he.symm, h2 he⟩

theorem keyGE_trans {a b c : CandidateRecord} (h1 : keyGE a b) (h2 : keyGE b c) :
    keyGE a c := by
  rcases h1 with h1 | ⟨h1, h1q⟩
  · rcases h2 with h2 | ⟨h2, _⟩
    · exact Or.inl (lt_trans h2 h1)
    · exact Or.inl (h2 ▸ h1)
  · rcases h2 with h2 | ⟨h2, h2q⟩
    · exact Or.inl (h1 ▸ h2)
    · exact Or.inr ⟨h1.trans h2, le_trans h2q h1q⟩

theorem mem_insertRec {y a : CandidateRecord} {l : List CandidateRecord} :
    y ∈ insertRec a l ↔ y = a ∨ y ∈ l := by
  induction l with
  | nil => simp [insertRec]
  | cons x xs ih =>
    rw [insertRec]
    split
    · simp only [List.mem_cons, ih]
      tauto
    · simp [List.mem_cons]

theorem pairwise_insertRec (a : CandidateRecord) {l : List CandidateRecord}
    (h : l.Pairwise keyGE) : (insertRec a l).Pairwise keyGE := by
  induction l with
  | nil => simp [insertRec, List.Pairwise]
  | cons x xs ih =>
    rw [List.pairwise_cons] at h
    obtain ⟨hx, htl⟩ := h
    rw [insertRec]
    split
    · next hGT =>
      rw [List.pairwise_cons]
      refine ⟨?_, ih htl⟩
      intro y hy
      rcases mem_insertRec.mp hy with rfl | hy
      · exact keyGE_of_keyGT hGT
      · exact hx y hy
    · next hGT =>
      have hGT' : keyGT x a = false := by
        revert hGT
        cases keyGT x a <;> simp
      rw [List.pairwise_cons]
      refine ⟨?_, List.pairwise_cons.mpr ⟨hx, htl⟩⟩
      intro y hy
      rcases List.mem_cons.mp hy with rfl | hy
      · exact keyGE_of_not_keyGT hGT'
      · exact keyGE_trans (keyGE_of_not_keyGT hGT') (hx y hy)

theorem perm_insertRec (a : CandidateRecord) (l : List CandidateRecord) :
    (insertRec a l).Perm (a :: l) := by
  induction l with
  | nil => rfl
  | cons x xs ih =>
    rw [insertRec]
    split
    · exact (ih.cons x).trans (List.Perm.swap a x xs)
    · rfl

theorem sortResults_sorted (l : List CandidateRecord) :
    (sortResults l).Pairwise keyGE := by
  induction l with
  | nil => simp [sortResults, List.Pairwise]
  | cons a l ih =>
    rw [sortResults_cons]
    exact pairwise_insertRec a ih

theorem sortResults_is_perm (l : List CandidateRecord) :
    (sortResults l).Perm l := by
  induction l with
  | nil => rfl
  | cons a l ih =>
    rw [sortResults_cons]
    exact (perm_insertRec a (sortResults l)).trans (ih.cons a)

theorem filter_insertRec (p : CandidateRecord → Bool)
    (hp : ∀ x y, p x = true → p y = true → keyGT x y = false)
    (a : CandidateRecord) (l : List CandidateRecord) :
    (insertRec a l).filter p = ((a :: l).filter p) := by
  induction l with
  | nil => rfl
  | cons x xs ih =>
    rw [insertRec]
    split
    · next hGT =>
      cases hpa : p a with
      | false => simp [List.filter_cons, ih, hpa]
      | true =>
        cases hpx : p x with
        | false => simp [List.filter_cons, ih, hpa, hpx]
        | true => exact absurd (hp x a hpx hpa) (by simp [hGT])
    · rfl

theorem filter_sortResults (p : CandidateRecord → Bool)
    (hp : ∀ x y, p x = true → p y = true → keyGT x y = false)
    (l : List CandidateRecord) :
    (sortResults l).filter p = l.filter p := by
  induction l with
  | nil => rfl
  | cons a l ih =>
    rw [sortResults_cons, filter_insertRec p hp]
    rw [List.filter_cons, List.filter_cons, ih]

theorem keyEq_keyGT {n : ℕ} {q : ℚ} {x y : CandidateRecord}
    (hx : keyEq n q x = true) (hy : keyEq n q y = true) : keyGT x y = false := by
  rw [keyEq, decide_eq_true_eq] at hx hy
  rw [keyGT, decide_eq_false_iff_not]
  rw [hx.1, hx.2, hy.1, hy.2]
  simp

/-! ## Claim C4 -/

/-- Claim C4 (confirmed): the emitted candidate list is `sortResults` of the
raw results; `sortResults` sorts descending by the lexicographic key
`(conditions_met, breakthrough_ratio)` (`keyGE` pairwise), is a permutation,
and is stable (the sublist of records carrying any fixed key is unchanged);
every raw record has `conditions_met = 8`, so the effective ordering of the
emitted list is breakout ratio descending. -/
theorem c4_ranking_stable :
    (∀ l : List CandidateRecord, (sortResults l).Pairwise keyGE) ∧
    (∀ l : List CandidateRecord, (sortResults l).Perm l) ∧
    (∀ (l : List CandidateRecord) (n : ℕ) (q : ℚ),
        (sortResults l).filter (keyEq n q) = l.filter (keyEq n q)) ∧
    (∀ (revP volP : Bool) (stocks : List StockData),
        calculate_second_high_conditions revP volP stocks
          = sortResults (rawResults revP volP stocks)) ∧
    (∀ (revP volP : Bool) (stocks : List StockData),
        (rawResults revP volP stocks).all (fun r => decide (r.conditions_met = 8)) = true) ∧
    (∀ (revP volP : Bool) (stocks : List StockData),
        (calculate_second_high_conditions revP volP stocks).Pairwise
          (fun a b => b.breakthroughRatioVal ≤ a.breakthroughRatioVal)) := by
  refine ⟨sortResults_sorted, sortResults_is_perm, ?_, ?_, ?_, ?_⟩
  · intro l n q
    exact filter_sortResults (keyEq n q) (fun x y hx hy => keyEq_keyGT hx hy) l
  · intro revP volP stocks
    rfl
  · intro revP volP stocks
    rw [rawResults_eq_nil]
    rfl
  · intro revP volP stocks
    rw [calc_eq_nil]
    simp [List.Pairwise]

/-! ## Claim C3 -/

/-- Claim C3 counterexample: when basic filtering drops every instrument,
`run_analysis` raises (returns the error path with the
"no usable stocks after basic filtering" message) instead of producing an
empty result set. -/
theorem c3_empty_filter_raises :
    (apply_basic_filters exC3).isEmpty = true ∧
      run_analysis exC3 = Except.error emptyUniverseMsg := by
  have h : apply_basic_filters exC3 = [] := by decide!
  exact ⟨by rw [h]; rfl, by simp [run_analysis, h]⟩

/-- Claim C3 amended: when basic filtering drops every instrument,
`run_analysis` raises the "no usable stocks" exception (which the top-level
handler reports as a failed run); the condition evaluator itself, applied to
an empty universe, does return an empty result set without error. -/
theorem c3_empty_universe (d : MarketData) (h : apply_basic_filters d = []) :
    run_analysis d = Except.error emptyUniverseMsg ∧
      calculate_second_high_conditions d.revenuePresent d.volumePresent [] = [] := by
  exact ⟨by simp [run_analysis, h], calc_eq_nil _ _ _⟩

/-- Witness for the amended claim C3 at a concrete universe whose only
instrument fails the price floor. -/
theorem c3_empty_universe_witness :
    run_analysis exC3 = Except.error emptyUniverseMsg ∧
      calculate_second_high_conditions exC3.revenuePresent exC3.volumePresent [] = [] :=
  c3_empty_universe exC3 (by decide!)

/-! ## Claim C7 -/

/-- Claim C7 counterexample: in `exC7` with the evaluation-date close replaced
by 60, the maximum close of the prior 60-session window is 100 and
`60 < 100`, yet condition 1 is `true` — the prior window's maximum sits
exactly at the session that drops out of the trailing-60 window of the
evaluation date, so "strictly below the prior 60-session maximum" does not
force condition 1 to be false. -/
theorem c7_below_prior_max :
    priorWindowMax (replaceLast exC7 60) = some 100 ∧ (60 : ℚ) < 100 ∧
      condition1 (replaceLast exC7 60) = true := by
  refine ⟨by decide!, by norm_num, by decide!⟩

/-- Appending one element to a list shifts its maximum by one `max`. -/
theorem listMax_append_singleton (zs : List ℚ) (v : ℚ) :
    listMax (zs ++ [v]) = some (match listMax zs with
      | some m => max m v
      | none => v) := by
  cases zs with
  | nil => rfl
  | cons x t =>
    simp only [listMax, List.cons_append, List.foldl_append, List.foldl_cons,
      List.foldl_nil]

/-- Claim C7 amended: condition 1's exact threshold in the evaluation-date
close is the maximum of the 59 sessions preceding the evaluation date (the
sessions that share its trailing-60 window): any replacement close at or
above that maximum (in particular any value strictly above the prior
60-session maximum) yields condition 1 true, and any value strictly below it
yields false. -/
theorem c7_condition1_threshold (xs : List ℚ) (v M : ℚ) (hlen : 60 ≤ xs.length)
    (hM : prior59Max (replaceLast xs v) = some M) :
    (M ≤ v → condition1 (replaceLast xs v) = true) ∧
    (v < M → condition1 (replaceLast xs v) = false) := by
  rw [prior59Max, replaceLast, List.dropLast_concat] at hM
  have hys : xs.dropLast.length = xs.length - 1 := List.length_dropLast xs
  have hlen2 : (xs.dropLast ++ [v]).length = xs.length := by
    rw [List.length_append, hys]
    simp
    omega
  have hwin : lastN 60 (xs.dropLast ++ [v]) = lastN 59 xs.dropLast ++ [v] := by
    rw [lastN, lastN, hlen2, List.drop_append_eq_append_drop]
    have h2 : xs.length - 60 - xs.dropLast.length = 0 := by omega
    have h3 : xs.length - 60 = xs.dropLast.length - 59 := by omega
    rw [h2, h3, List.drop_zero]
  have hlast : (xs.dropLast ++ [v]).getLastD 0 = v := List.getLastD_concat _ _ _
  have hmax : rollingMaxLast 60 (xs.dropLast ++ [v]) = some (max M v) := by
    rw [rollingMaxLast, if_pos (by rw [hlen2]; exact hlen), hwin,
      listMax_append_singleton, hM]
  rw [replaceLast]
  simp only [condition1, hmax, hlast]
  constructor
  · intro h
    rw [max_eq_right h]
    simp
  · intro h
    rw [max_eq_left (le_of_lt h)]
    exact decide_eq_false (not_le.mpr h)

/-- Witness for the amended claim C7: on a flat 60-session history a
replacement close equal to the 59-session maximum yields condition 1 true. -/
theorem c7_condition1_threshold_witness :
    condition1 (replaceLast (List.replicate 60 (50 : ℚ)) 50) = true :=
  (c7_condition1_threshold (List.replicate 60 (50 : ℚ)) 50 50 (by decide!)
    (by decide!)).1 (le_refl 50)

/-! ## Claim C8 -/

/-- Claim C8 counterexample: `exC8` is an evaluated-length history (130
closes) on which the code's condition 5 is `true` (it compares against
`iloc[-120]`, the close 119 sessions earlier, which is 50) while the spec's
reading — the close observed 120 sessions earlier, which is 200 — makes the
stated condition false.  The claimed equivalence fails by one session. -/
theorem c8_off_by_one :
    exC8.length = 130 ∧ condition5 exC8 = true ∧ spec_condition5 exC8 = false := by
  refine ⟨by decide!, by decide!, by decide!⟩

/-- Claim C8 amended: for every evaluated instrument (at least 130 closes),
condition 5 holds iff the latest close strictly exceeds the 120th most recent
close (`iloc[-120]`, the close 119 sessions earlier); the
insufficient-history branch cannot arise at this length. -/
theorem c8_long_term_uptrend (sc : List ℚ) (h : 130 ≤ sc.length) :
    condition5 sc = decide (sc.getD (sc.length - 120) 0 < sc.getLastD 0) := by
  rw [condition5, if_pos (by omega)]

/-- Witness for the amended claim C8 on a flat 130-session history. -/
theorem c8_long_term_uptrend_witness :
    condition5 (List.replicate 130 (50 : ℚ)) = false := by
  rw [c8_long_term_uptrend (List.replicate 130 (50 : ℚ)) (by decide!)]
  decide!

/-! ## Claim C9 -/

theorem gains_nonneg (sc : List ℚ) : ∀ x ∈ gains sc, 0 ≤ x := by
  intro x hx
  rw [gains] at hx
  rcases List.mem_map.mp hx with ⟨d, _, rfl⟩
  cases d with
  | none => simp
  | some y =>
    dsimp only
    split
    · next hy => exact le_of_lt hy
    · exact le_refl 0

theorem losses_nonneg (sc : List ℚ) : ∀ x ∈ losses sc, 0 ≤ x := by
  intro x hx
  rw [losses] at hx
  rcases List.mem_map.mp hx with ⟨d, _, rfl⟩
  cases d with
  | none => simp
  | some y =>
    dsimp only
    split
    · next hy => exact le_of_lt (by linarith)
    · exact le_refl 0

theorem meanLast_nonneg (k : ℕ) (xs : List ℚ) (h : ∀ x ∈ xs, 0 ≤ x) :
    0 ≤ meanLast k xs := by
  rw [meanLast]
  apply div_nonneg
  · apply List.sum_nonneg
    intro x hx
    rw [lastN] at hx
    exact h x (List.mem_of_mem_drop hx)
  · exact Nat.cast_nonneg _

/-- Claim C9 (confirmed): for every instrument long enough to pass (at least
130 closes), the reported RSI is the Wilder-style map
`100 - 100 / (1 + meanGain / meanLoss)` of the 14-session mean gain / mean
loss — a value in `[0, 100]` — when the mean loss is nonzero, and is 100 when
the mean loss is zero and the mean gain positive (the float quotient is
infinite).  The insufficient-history defaults (NaN below 14 closes, 50 for an
empty series) cannot arise at this length. -/
theorem c9_rsi (sc : List ℚ) (h : 130 ≤ sc.length) :
    (meanLast 14 (losses sc) ≠ 0 →
        reported_rsi sc
          = some (100 - 100 / (1 + meanLast 14 (gains sc) / meanLast 14 (losses sc))) ∧
        0 ≤ 100 - 100 / (1 + meanLast 14 (gains sc) / meanLast 14 (losses sc)) ∧
        100 - 100 / (1 + meanLast 14 (gains sc) / meanLast 14 (losses sc)) ≤ 100) ∧
    (meanLast 14 (losses sc) = 0 → 0 < meanLast 14 (gains sc) →
        reported_rsi sc = some 100) := by
  have hg : 0 ≤ meanLast 14 (gains sc) := meanLast_nonneg _ _ (gains_nonneg sc)
  have hl : 0 ≤ meanLast 14 (losses sc) := meanLast_nonneg _ _ (losses_nonneg sc)
  constructor
  · intro hne
    have hratio : 0 ≤ meanLast 14 (gains sc) / meanLast 14 (losses sc) :=
      div_nonneg hg hl
    have hden : (0 : ℚ) < 1 + meanLast 14 (gains sc) / meanLast 14 (losses sc) := by
      linarith
    refine ⟨?_, ?_, ?_⟩
    · rw [reported_rsi, if_neg (by omega)]
      simp only [rsi_last]
      rw [if_neg (by omega), if_neg hne]
    · have hq : 100 / (1 + meanLast 14 (gains sc) / meanLast 14 (losses sc)) ≤ 100 := by
        rw [div_le_iff₀ hden]
        nlinarith
      linarith
    · have hq : 0 ≤ 100 / (1 + meanLast 14 (gains sc) / meanLast 14 (losses sc)) :=
        div_nonneg (by norm_num) (le_of_lt hden)
      linarith
  · intro hz hgpos
    rw [reported_rsi, if_neg (by omega)]
    simp only [rsi_last]
    rw [if_neg (by omega), if_pos hz, if_pos hgpos]

/-- Witness for claim C9: on `exC9` the 14-session mean gain and mean loss
are both 1/2, so the reported RSI is 50. -/
theorem c9_rsi_witness : reported_rsi exC9 = some 50 := by
  have h := ((c9_rsi exC9 (by decide!)).1 (by decide!)).1
  rw [h]
  decide!
